import Mathlib

/-
Verification development for the House-me Telegram bot
(src/backend/bot/bot.py, src/backend/bot/api/telegram.py).

The Python source is shallowly embedded: JSON values are an inductive
type, the Mongo users collection is an association list of user
documents, per-user session state is an association list of session
records, and every fallible Python expression is modelled with
Except PyErr.  External effects (Telegram sends, the listings HTTP
API, the clock) are passed in as explicit inputs: an ApiResponse value
stands for the outcome of the one HTTP request a handler branch makes,
and Nat ticks stand for the wall clock readings.
-/

namespace HouseMe

/-- JSON values, as produced by response.json() and stored in Mongo. -/
inductive Json where
  | null : Json
  | bool (b : Bool) : Json
  | num (n : Int) : Json
  | str (s : String) : Json
  | arr (xs : List Json) : Json
  | obj (fields : List (String × Json)) : Json

/-- Python exception classes that the embedded code can raise. -/
inductive PyErr where
  | attributeError
  | typeError
  | valueError
  | nameError
  | jsonDecodeError
  | transportError
  | duplicateKeyError
deriving DecidableEq, Repr

/-- Python truthiness of a JSON value (bool(x)). -/
def jsonTruthy : Json → Bool
  | Json.null => false
  | Json.bool b => b
  | Json.num n => n != 0
  | Json.str s => s != ""
  | Json.arr xs => !xs.isEmpty
  | Json.obj fs => !fs.isEmpty

/-- dict.get(key, default) on a JSON value; raises AttributeError when the
receiver is not a dict, exactly as Python does. -/
def pyGetD (j : Json) (key : String) (dflt : Json) : Except PyErr Json :=
  match j with
  | Json.obj fs => Except.ok ((fs.lookup key).getD dflt)
  | _ => Except.error PyErr.attributeError

/-! ## The datetime name binding (bot.py lines 10 and 11)

bot.py executes, in order,
  line 10: import datetime
  line 11: from datetime import datetime, timedelta
Both statements bind the module level name "datetime"; the second
rebinds it to the datetime class.  We model the relevant objects and
the two import statements as updates to an association-list
environment, newest binding first. -/

/-- The Python objects relevant to the datetime lookup chain. -/
inductive PyObj where
  | datetimeModule
  | datetimeClass
  | timedeltaClass
  | utcnowMethod
  | nowMethod
deriving DecidableEq, Repr

/-- Attribute lookup on those objects.  The datetime module exposes the
datetime class; the datetime class exposes utcnow and now but has no
attribute named "datetime". -/
def getattr : PyObj → String → Option PyObj
  | PyObj.datetimeModule, "datetime" => some PyObj.datetimeClass
  | PyObj.datetimeModule, "timedelta" => some PyObj.timedeltaClass
  | PyObj.datetimeClass, "utcnow" => some PyObj.utcnowMethod
  | PyObj.datetimeClass, "now" => some PyObj.nowMethod
  | _, _ => none

/-- A module global environment: name to object, newest binding first. -/
abbrev PyEnv := List (String × PyObj)

/-- Name lookup in a module environment. -/
def lookupName (env : PyEnv) (n : String) : Option PyObj :=
  List.lookup n env

/-- Effect of bot.py line 10, import datetime. -/
def importDatetimeModule (env : PyEnv) : PyEnv :=
  ("datetime", PyObj.datetimeModule) :: env

/-- Effect of bot.py line 11, from datetime import datetime, timedelta. -/
def fromDatetimeImport (env : PyEnv) : PyEnv :=
  ("timedelta", PyObj.timedeltaClass) :: ("datetime", PyObj.datetimeClass) :: env

/-- The module environment of bot.py after its import block: line 10
then line 11. -/
def botModuleEnv : PyEnv := fromDatetimeImport (importDatetimeModule [])

/-- Counterfactual environment holding only the line 10 binding, used to
show what the code would have done had line 11 not shadowed it. -/
def datetimeModuleOnlyEnv : PyEnv := importDatetimeModule []

/-- Evaluation of the expression datetime.datetime.utcnow() in a module
environment; t is the clock reading returned when the call succeeds. -/
def evalDatetimeUtcnow (env : PyEnv) (t : Nat) : Except PyErr Nat :=
  match lookupName env "datetime" with
  | none => Except.error PyErr.nameError
  | some obj =>
    match getattr obj "datetime" with
    | none => Except.error PyErr.attributeError
    | some obj2 =>
      match getattr obj2 "utcnow" with
      | some PyObj.utcnowMethod => Except.ok t
      | _ => Except.error PyErr.attributeError

/-! ## The users collection -/

/-- A user document.  Every field except the id is Option valued because
a Mongo document simply lacks the fields that were never set; in
particular the document written by the /start handler has no favorites
field at all. -/
structure UserDoc where
  id : String
  firstName : Option String := none
  lastName : Option String := none
  username : Option String := none
  languageCode : Option String := none
  isPremium : Option Bool := none
  userImage : Option String := none
  createdAt : Option Nat := none
  updatedAt : Option Nat := none
  favorites : Option (List String) := none
deriving Repr

/-- The users collection, keyed by the string user id. -/
abbrev DB := List UserDoc

/-- users_collection.find_one on the id. -/
def findOne (db : DB) (uid : String) : Option UserDoc :=
  List.find? (fun u => u.id == uid) db

/-- users_collection.insert_one; raises DuplicateKeyError when a document
with the id already exists. -/
def insertOne (db : DB) (u : UserDoc) : Except PyErr DB :=
  match findOne db u.id with
  | some _ => Except.error PyErr.duplicateKeyError
  | none => Except.ok (db ++ [u])

/-- users_collection.update_one with a set of favorites and updated_at,
optionally upserting (the fav_add branch passes upsert=True, the
fav_remove branch does not). -/
def updateOneSetFav (db : DB) (uid : String) (favs : List String) (ts : Nat)
    (upsert : Bool) : DB :=
  match findOne db uid with
  | some _ =>
      List.map (fun u => if u.id == uid
        then { u with favorites := some favs, updatedAt := some ts } else u) db
  | none =>
      if upsert then db ++ [{ id := uid, favorites := some favs, updatedAt := some ts }]
      else db

/-- The favorites list the bot reads for a user: user.get("favorites", [])
when the document exists, the empty list otherwise. -/
def favoritesIn (db : DB) (uid : String) : List String :=
  match findOne db uid with
  | some u => u.favorites.getD []
  | none => []

/-! ## The listings API client (fetch_properties, fetch_property) -/

/-- The filter dict handed to fetch_properties.  A none field is a key
absent from the dict. -/
structure Filters where
  searchType : Option String := none
  minPrice : Option Int := none
  maxPrice : Option Int := none
  location : Option String := none
  type : Option String := none
  search : Option String := none
  limit : Option Int := none
  skip : Option Int := none

/-- Truthiness of an optional int dict entry: present and nonzero. -/
def truthyIntField : Option Int → Bool
  | some n => n != 0
  | none => false

/-- Truthiness of an optional string dict entry: present and nonempty. -/
def truthyStrField : Option String → Bool
  | some s => s != ""
  | none => false

/-- The params dict fetch_properties builds (bot.py lines 85 to 100):
minPrice, maxPrice, location, type and search are added only when
present and truthy; limit and skip are added whenever present.  The
search_type key the session carries is never consulted. -/
def buildParams (f : Filters) : List (String × Json) :=
  (if truthyIntField f.minPrice then [("minPrice", Json.num (f.minPrice.getD 0))] else []) ++
  (if truthyIntField f.maxPrice then [("maxPrice", Json.num (f.maxPrice.getD 0))] else []) ++
  (if truthyStrField f.location then [("location", Json.str (f.location.getD ""))] else []) ++
  (if truthyStrField f.type then [("type", Json.str (f.type.getD ""))] else []) ++
  (if truthyStrField f.search then [("search", Json.str (f.search.getD ""))] else []) ++
  (match f.limit with | some n => [("limit", Json.num n)] | none => []) ++
  (match f.skip with | some n => [("skip", Json.num n)] | none => [])

/-- A GET request to the listings API: path and query parameters. -/
structure ApiRequest where
  path : String
  params : List (String × Json)

/-- The request fetch_properties issues for a filter set. -/
def propertiesRequest (f : Filters) : ApiRequest :=
  { path := "/houses", params := buildParams f }

/-- Outcome of the body parse of an HTTP response: response.json()
either raises or yields a JSON value. -/
inductive BodyParse where
  | malformed
  | parsed (j : Json)

/-- Outcome of one HTTP request to the listings API: the request itself
raised, or a response arrived with a status code and a body. -/
inductive ApiResponse where
  | transportError
  | ok (status : Nat) (body : BodyParse)

/-- The failure modes named by the spec: transport error, non-200
status, or a 200 whose body is not valid JSON. -/
def isApiFailure : ApiResponse → Bool
  | ApiResponse.transportError => true
  | ApiResponse.ok status body =>
      status != 200 ||
      (match body with | BodyParse.malformed => true | _ => false)

/-- Body of fetch_properties before its try/except wrapper: status
check, response.json(), then data.get("data", []). -/
def fetchPropertiesCore (resp : ApiResponse) : Except PyErr Json :=
  match resp with
  | ApiResponse.transportError => Except.error PyErr.transportError
  | ApiResponse.ok status body =>
    if status == 200 then
      match body with
      | BodyParse.malformed => Except.error PyErr.jsonDecodeError
      | BodyParse.parsed data => pyGetD data "data" (Json.arr [])
    else Except.ok (Json.arr [])

/-- fetch_properties (bot.py lines 81 to 110): the try/except wrapper
turns every raised exception into the empty list. -/
def fetchProperties (resp : ApiResponse) : Json :=
  match fetchPropertiesCore resp with
  | Except.ok j => j
  | Except.error _ => Json.arr []

/-- Body of fetch_property before its try/except wrapper: status check,
response.json(), then data.get("data") or data. -/
def fetchPropertyCore (resp : ApiResponse) : Except PyErr (Option Json) :=
  match resp with
  | ApiResponse.transportError => Except.error PyErr.transportError
  | ApiResponse.ok status body =>
    if status == 200 then
      match body with
      | BodyParse.malformed => Except.error PyErr.jsonDecodeError
      | BodyParse.parsed data =>
        match data with
        | Json.obj fs =>
            let x := (fs.lookup "data").getD Json.null
            Except.ok (some (if jsonTruthy x then x else data))
        | _ => Except.error PyErr.attributeError
    else Except.ok none

/-- fetch_property (bot.py lines 112 to 124): the try/except wrapper
turns every raised exception into None. -/
def fetchProperty (resp : ApiResponse) : Option Json :=
  match fetchPropertyCore resp with
  | Except.ok r => r
  | Except.error _ => none

/-! ## The property list keyboard (generate_properties_list_keyboard) -/

/-- An inline keyboard button relevant to the claims: a property button
carrying the id value used in its prop_ callback data and its truncated
title, the two pagination buttons carrying their target page, and the
back button. -/
inductive Button where
  | prop (id : Json) (title : String)
  | prevPage (page : Nat)
  | nextPage (page : Nat)
  | back

/-- One property button: prop.get("id") or prop.get("_id") for the
callback id, prop.get("title", "Untitled")[:30] for the label.  Raises
AttributeError when prop is not a dict and TypeError when the title
value is not sliceable text, exactly where Python would. -/
def mkPropButton (p : Json) : Except PyErr Button :=
  match pyGetD p "id" Json.null with
  | Except.error e => Except.error e
  | Except.ok idv =>
    match pyGetD p "_id" Json.null with
    | Except.error e => Except.error e
    | Except.ok idv2 =>
      let pid := if jsonTruthy idv then idv else idv2
      match pyGetD p "title" (Json.str "Untitled") with
      | Except.error e => Except.error e
      | Except.ok (Json.str s) =>
          Except.ok (Button.prop pid (String.mk (s.data.take 30)))
      | Except.ok _ => Except.error PyErr.typeError

/-- A listing record the keyboard loop can render without raising: a
dict whose title, when present, is a string. -/
def wellFormedProp : Json → Bool
  | Json.obj fs =>
      match fs.lookup "title" with
      | none => true
      | some (Json.str _) => true
      | some _ => false
  | _ => false

/-- Total counterpart of mkPropButton, agreeing with it on well formed
listing records. -/
def mkPropButtonPure (p : Json) : Button :=
  match p with
  | Json.obj fs =>
      let idv := (fs.lookup "id").getD Json.null
      let idv2 := (fs.lookup "_id").getD Json.null
      let pid := if jsonTruthy idv then idv else idv2
      let title :=
        match (fs.lookup "title").getD (Json.str "Untitled") with
        | Json.str s => String.mk (s.data.take 30)
        | _ => ""
      Button.prop pid title
  | _ => Button.prop Json.null ""

/-- The for loop of the keyboard builder: buttons in order, stopping at
the first raised exception. -/
def buttonsFor : List Json → Except PyErr (List Button)
  | [] => Except.ok []
  | p :: rest =>
      match mkPropButton p with
      | Except.error e => Except.error e
      | Except.ok b =>
        match buttonsFor rest with
        | Except.error e => Except.error e
        | Except.ok bs => Except.ok (b :: bs)

/-- generate_properties_list_keyboard (bot.py lines 205 to 226) with the
default per_page of 5: slices properties[page*5 : min(page*5+5, len)],
appends Previous when page exceeds 0, Next when the slice ends before
the end of the list, and the back button. -/
def generatePropertiesListKeyboard (props : List Json) (page : Nat) :
    Except PyErr (List Button) :=
  let startIdx := page * 5
  let endIdx := min (startIdx + 5) props.length
  let slice := (props.drop startIdx).take (endIdx - startIdx)
  match buttonsFor slice with
  | Except.error e => Except.error e
  | Except.ok propButtons =>
    let nav :=
      (if 0 < page then [Button.prevPage (page - 1)] else []) ++
      (if endIdx < props.length then [Button.nextPage (page + 1)] else [])
    Except.ok (propButtons ++ nav ++ [Button.back])

/-- Test for a property button. -/
def isPropButton : Button → Bool
  | Button.prop _ _ => true
  | _ => false

/-- The property buttons of a keyboard, in order. -/
def propButtonsOf (kb : List Button) : List Button :=
  kb.filter isPropButton

/-- Test for a Next pagination button. -/
def isNextButton : Button → Bool
  | Button.nextPage _ => true
  | _ => false

/-- Test for a Previous pagination button. -/
def isPrevButton : Button → Bool
  | Button.prevPage _ => true
  | _ => false

/-- Whether a keyboard carries a Next pagination button. -/
def hasNextButton (kb : List Button) : Bool :=
  kb.any isNextButton

/-- Whether a keyboard carries a Previous pagination button. -/
def hasPrevButton (kb : List Button) : Bool :=
  kb.any isPrevButton

/-! ## Session state (user_states) -/

/-- The free text inputs a session can be waiting for. -/
inductive WaitKind where
  | location
  | price
  | textSearch
deriving DecidableEq, Repr

/-- One user_states entry.  A none field is a key absent from the dict;
the handlers only ever store the keys modelled here. -/
structure Session where
  waitingFor : Option WaitKind := none
  searchType : Option String := none
  location : Option String := none
  type : Option String := none
  minPrice : Option Int := none
  maxPrice : Option Int := none
  search : Option String := none
  page : Option Nat := none

/-- The process wide user_states dict, keyed by the integer user id.
Newest binding first; getSession observes the newest. -/
abbrev States := List (Nat × Session)

/-- user_states.get(uid). -/
def getSession (states : States) (uid : Nat) : Option Session :=
  match states with
  | [] => none
  | (k, v) :: rest => if k == uid then some v else getSession rest uid

/-- user_states[uid] = s. -/
def setSession (states : States) (uid : Nat) (s : Session) : States :=
  (uid, s) :: states

/-- user_states[uid].pop("waiting_for", None), guarded by the
membership test on line 1084. -/
def popWaiting (states : States) (uid : Nat) : States :=
  match getSession states uid with
  | none => states
  | some s => (uid, { s with waitingFor := none }) :: states

/-- The filter dict the page_ branch derives from a session: every key
except page and waiting_for (bot.py line 761). -/
def sessionFilters (s : Session) : Filters :=
  { searchType := s.searchType, minPrice := s.minPrice, maxPrice := s.maxPrice,
    location := s.location, type := s.type, search := s.search }

/-! ## Price text parsing (bot.py lines 1027 to 1041)

String processing is modelled character-wise over the underlying
character list, so that concrete inputs evaluate. -/

/-- str.strip(): drop whitespace from both ends. -/
def pyStripChars (cs : List Char) : List Char :=
  ((cs.dropWhile Char.isWhitespace).reverse.dropWhile Char.isWhitespace).reverse

/-- str.strip() on a string. -/
def pyStrip (s : String) : String := String.mk (pyStripChars s.data)

/-- Digit characters to the Nat they denote. -/
def digitsToNat (cs : List Char) : Nat :=
  cs.foldl (fun acc c => acc * 10 + (c.toNat - 48)) 0

/-- Python int(str) on a character list: strip surrounding whitespace,
an optional sign, then decimal digits; anything else raises ValueError
(PEP 515 digit group underscores are not modelled). -/
def pyIntChars (cs : List Char) : Option Int :=
  let t := pyStripChars cs
  let signed := match t with
    | '-' :: rest => (true, rest)
    | '+' :: rest => (false, rest)
    | _ => (false, t)
  if !signed.2.isEmpty && signed.2.all Char.isDigit then
    some (if signed.1 then -(Int.ofNat (digitsToNat signed.2))
          else Int.ofNat (digitsToNat signed.2))
  else none

/-- text.replace(",", "").replace(naira sign, ""): replacing a single
character pattern by the empty string is a character filter. -/
def stripMoneyChars (cs : List Char) : List Char :=
  cs.filter (fun c => !(c == ',') && !(c == '₦'))

/-- str.split on a hyphen, keeping empty segments, as Python does. -/
def splitOnHyphen : List Char → List (List Char)
  | [] => [[]]
  | c :: rest =>
      let r := splitOnHyphen rest
      if c == '-' then [] :: r
      else
        match r with
        | [] => [[c]]
        | h :: t2 => (c :: h) :: t2

/-- The filters the price branch builds from its input. -/
structure PriceFilters where
  minPrice : Option Int
  maxPrice : Int

/-- The parse performed by the price branch on the already stripped
message text: with a hyphen in the text, int on the first two split
segments after stripping each and removing commas and currency signs
(ValueError from either aborts); otherwise int on the whole text after
the same removal. -/
def parsePriceText (text : String) : Option PriceFilters :=
  if text.data.contains '-' then
    let parts := splitOnHyphen text.data
    match pyIntChars (stripMoneyChars (pyStripChars (parts.getD 0 []))),
          pyIntChars (stripMoneyChars (pyStripChars (parts.getD 1 []))) with
    | some mn, some mx => some { minPrice := some mn, maxPrice := mx }
    | _, _ => none
  else
    match pyIntChars (stripMoneyChars text.data) with
    | some mx => some { minPrice := none, maxPrice := mx }
    | none => none

/-! ## Replies -/

/-- The user visible message a handler sends, abstracted to which
message it is; exact wording is a presentation constant. -/
inductive ReplyTag where
  | searching
  | propertiesFound
  | noPropertiesFound
  | priceFormatError
  | genericTextError
  | welcome
deriving DecidableEq, Repr

/-- The keyboard attached to a reply, as far as the claims observe it. -/
inductive KbKind where
  | noKb
  | backMenu
  | mainMenu
  | propList (buttons : List Button)

/-- One outgoing message. -/
structure Reply where
  tag : ReplyTag
  kb : KbKind

/-- Result of one run of the free text handler or of the page_ callback
branch: the session table afterwards, the listings API request made (if
any), and the replies sent. -/
structure TextResult where
  states : States
  request : Option ApiRequest
  replies : List Reply

/-! ## The free text handler (handle_text_messages, bot.py 991 to 1089)

Each branch overwrites the session entry, sends a searching
acknowledgement, fetches, and renders either a result list or a no
results message; the common epilogue pops the waiting_for key.  An
exception raised while rendering (possible only when the fetched value
is not a list of dicts) jumps to the outer except, which sends the
generic error reply and skips the epilogue. -/

/-- The extra session store some branches perform on their non
exception exits (the location branch stores its entry again on line
1023); none for the branches without it. -/
def restoreStates (states1 : States) (uid : Nat) (restore : Option Session) :
    States :=
  match restore with
  | some s => setSession states1 uid s
  | none => states1

/-- Shared rendering tail: given the session table already holding the
overwritten entry, the request made, the fetched value, and the session
value the branch re-stores on its non exception exits, produce the
final result including the waiting_for pop. -/
def renderSearch (states1 : States) (uid : Nat) (req : ApiRequest)
    (props : Json) (restore : Option Session) : TextResult :=
  let finishStates : States := restoreStates states1 uid restore
  if jsonTruthy props then
    match props with
    | Json.arr ps =>
      match generatePropertiesListKeyboard ps 0 with
      | Except.ok kb =>
          { states := popWaiting finishStates uid, request := some req,
            replies := [{ tag := ReplyTag.searching, kb := KbKind.noKb },
                        { tag := ReplyTag.propertiesFound, kb := KbKind.propList kb }] }
      | Except.error _ =>
          { states := states1, request := some req,
            replies := [{ tag := ReplyTag.searching, kb := KbKind.noKb },
                        { tag := ReplyTag.genericTextError, kb := KbKind.noKb }] }
    | _ =>
        { states := states1, request := some req,
          replies := [{ tag := ReplyTag.searching, kb := KbKind.noKb },
                      { tag := ReplyTag.genericTextError, kb := KbKind.noKb }] }
  else
    { states := popWaiting finishStates uid, request := some req,
      replies := [{ tag := ReplyTag.searching, kb := KbKind.noKb },
                  { tag := ReplyTag.noPropertiesFound, kb := KbKind.backMenu }] }

/-- The location branch (bot.py lines 1005 to 1023). -/
def locationFlow (states : States) (uid : Nat) (text : String)
    (resp : ApiResponse) : TextResult :=
  let s1 : Session :=
    { searchType := some "location", location := some text, page := some 0 }
  let states1 := setSession states uid s1
  let req := propertiesRequest { location := some text, limit := some 20 }
  renderSearch states1 uid req (fetchProperties resp) (some s1)

/-- The price branch (bot.py lines 1025 to 1062). -/
def priceFlow (states : States) (uid : Nat) (text : String)
    (resp : ApiResponse) : TextResult :=
  match parsePriceText text with
  | none =>
      { states := popWaiting states uid, request := none,
        replies := [{ tag := ReplyTag.priceFormatError, kb := KbKind.backMenu }] }
  | some f =>
      let s1 : Session :=
        { searchType := some "price", minPrice := f.minPrice,
          maxPrice := some f.maxPrice, page := some 0 }
      let states1 := setSession states uid s1
      let req := propertiesRequest
        { minPrice := f.minPrice, maxPrice := some f.maxPrice, limit := some 20 }
      renderSearch states1 uid req (fetchProperties resp) none

/-- The text search branch (bot.py lines 1064 to 1081). -/
def textSearchFlow (states : States) (uid : Nat) (text : String)
    (resp : ApiResponse) : TextResult :=
  let s1 : Session :=
    { searchType := some "text", search := some text, page := some 0 }
  let states1 := setSession states uid s1
  let req := propertiesRequest { search := some text, limit := some 20 }
  renderSearch states1 uid req (fetchProperties resp) none

/-- handle_text_messages: look up the session, return silently when no
waiting_for marker is set, otherwise strip the text and run the branch
for the marker kind. -/
def handleTextMessages (states : States) (uid : Nat) (text : String)
    (resp : ApiResponse) : TextResult :=
  let st := (getSession states uid).getD {}
  match st.waitingFor with
  | none => { states := states, request := none, replies := [] }
  | some WaitKind.location => locationFlow states uid (pyStrip text) resp
  | some WaitKind.price => priceFlow states uid (pyStrip text) resp
  | some WaitKind.textSearch => textSearchFlow states uid (pyStrip text) resp

/-- The page_ callback branch (bot.py lines 758 to 776): filters are the
session entry minus page and waiting_for, plus limit 20 and
skip page*5; a truthy result list is rendered at local page index page,
a falsy one renders nothing at all. -/
def pageBranch (states : States) (uid : Nat) (page : Nat)
    (resp : ApiResponse) : TextResult :=
  let st := (getSession states uid).getD {}
  let f := { sessionFilters st with limit := some 20, skip := some (page * 5 : Int) }
  let req := propertiesRequest f
  let props := fetchProperties resp
  if jsonTruthy props then
    match props with
    | Json.arr ps =>
      match generatePropertiesListKeyboard ps page with
      | Except.ok kb =>
          { states := states, request := some req,
            replies := [{ tag := ReplyTag.propertiesFound, kb := KbKind.propList kb }] }
      | Except.error _ =>
          { states := states, request := some req,
            replies := [{ tag := ReplyTag.genericTextError, kb := KbKind.noKb }] }
    | _ =>
        { states := states, request := some req,
          replies := [{ tag := ReplyTag.genericTextError, kb := KbKind.noKb }] }
  else
    { states := states, request := some req, replies := [] }

/-! ## Favorites toggle (handle_callbacks, fav_add_ and fav_remove_) -/

/-- The transient answer sent for a callback query. -/
inductive CbAnswer where
  | addedToFavorites
  | alreadyInFavorites
  | errorAddingFavorites
  | removedFromFavorites
  | errorRemovingFavorite
  | genericAck
deriving DecidableEq, Repr

/-- Whether an answer is one of the show_alert error answers. -/
def isErrorAlert : CbAnswer → Bool
  | CbAnswer.errorAddingFavorites => true
  | CbAnswer.errorRemovingFavorite => true
  | _ => false

/-- The fav_add_ branch (bot.py lines 575 to 605): read the favorites
(an absent document counts as empty), and when the id is new, append it
and persist with upsert.  The update document evaluates
datetime.datetime.utcnow() before update_one runs; under the module
environment of bot.py that evaluation raises and the inner except
answers with the error alert, leaving the collection untouched.  The
answer recorded is the meaningful one of the branch; t feeds the clock.
-/
def favAdd (env : PyEnv) (db : DB) (uid : String) (propertyId : String)
    (t : Nat) : DB × CbAnswer :=
  let favorites := favoritesIn db uid
  if propertyId ∈ favorites then
    (db, CbAnswer.alreadyInFavorites)
  else
    match evalDatetimeUtcnow env t with
    | Except.error _ => (db, CbAnswer.errorAddingFavorites)
    | Except.ok ts =>
        (updateOneSetFav db uid (favorites ++ [propertyId]) ts true,
         CbAnswer.addedToFavorites)

/-- The fav_remove_ branch (bot.py lines 607 to 632): the favorites read
is (find_one(...)).get("favorites", []) with no absence guard, so a
missing document raises AttributeError on None and the inner except
answers with the error alert.  When the id is present it is removed and
persisted without upsert; when absent the branch falls through to the
plain answer_callback_query on line 836. -/
def favRemove (env : PyEnv) (db : DB) (uid : String) (propertyId : String)
    (t : Nat) : DB × CbAnswer :=
  match findOne db uid with
  | none => (db, CbAnswer.errorRemovingFavorite)
  | some u =>
    let favorites := u.favorites.getD []
    if propertyId ∈ favorites then
      match evalDatetimeUtcnow env t with
      | Except.error _ => (db, CbAnswer.errorRemovingFavorite)
      | Except.ok ts =>
          (updateOneSetFav db uid (favorites.erase propertyId) ts false,
           CbAnswer.removedFromFavorites)
    else (db, CbAnswer.genericAck)

/-! ## The /start handler (bot.py lines 245 to 310) -/

/-- The fields of message.from_user that /start reads. -/
structure TgUser where
  id : Nat
  firstName : Option String := none
  lastName : Option String := none
  username : Option String := none
  languageCode : Option String := none
  isPremium : Option Bool := none

/-- x or default for an optional string, with Python falsiness: absent
or empty both yield the default. -/
def orDefaultStr (x : Option String) (d : String) : String :=
  match x with
  | some s => if s == "" then d else s
  | none => d

/-- The /start handler: when no document exists for the id, build
user_data and insert it.  The created_at and updated_at entries each
evaluate datetime.datetime.utcnow(), in that order, with clock readings
t1 and t2; under the module environment of bot.py the first evaluation
raises AttributeError, the inner except on line 281 swallows it, and no
insert happens.  The welcome reply is sent either way.  img is the
result of handle_user_image, which never raises. -/
def start (env : PyEnv) (db : DB) (u : TgUser) (img : Option String)
    (t1 t2 : Nat) : DB × Reply :=
  let uid := toString u.id
  let firstName := orDefaultStr u.firstName "Valued User"
  let db2 :=
    match findOne db uid with
    | some _ => db
    | none =>
      match evalDatetimeUtcnow env t1 with
      | Except.error _ => db
      | Except.ok ts1 =>
        match evalDatetimeUtcnow env t2 with
        | Except.error _ => db
        | Except.ok ts2 =>
          let doc : UserDoc :=
            { id := uid,
              firstName := some firstName,
              lastName := some (orDefaultStr u.lastName ""),
              username := u.username,
              languageCode := some (orDefaultStr u.languageCode "en"),
              isPremium := some (u.isPremium.getD false),
              userImage := img,
              createdAt := some ts1,
              updatedAt := some ts2 }
          match insertOne db doc with
          | Except.error _ => db
          | Except.ok dbNew => dbNew
  (db2, { tag := ReplyTag.welcome, kb := KbKind.mainMenu })

/-! ## The webhook adapters

Two adapters receive the webhook: the dict based handler function in
api/telegram.py and the BaseHTTPRequestHandler subclass in bot.py.
Update processing is external to both; the processOk flag stands for
whether it completed. -/

/-- HTTP response as the adapters build it: a status code and which body
was sent, abstracted to its identity. -/
inductive RespBody where
  | okBody
  | errorProcessingBody
  | invalidJsonBody
  | statusPageBody
  | botNotInitBody
  | methodNotAllowedBody
  | updateProcessedBody
  | handlerErrorBody
  | unsupportedMethodBody
deriving DecidableEq, Repr

/-- An adapter response. -/
structure WebResponse where
  statusCode : Nat
  body : RespBody
deriving DecidableEq, Repr

/-- method.upper(), modelled character-wise over the underlying list so
that concrete method strings evaluate. -/
def pyUpper (s : String) : String := String.mk (s.data.map Char.toUpper)

/-- A request body as the dict handler sees it: a raw string together
with its JSON parse outcome, or an already parsed dict (the FastAPI
route parses the body itself and passes the dict). -/
inductive ReqBody where
  | strBody (p : BodyParse)
  | dictBody (j : Json)

/-- The dict based handler in api/telegram.py (lines 111 to 245):
method.upper() dispatch, GET status page, POST parsing strings and
passing dicts through, 400 on a string body that fails json.loads, 200
with plain OK when processing succeeds, 500 with an error message when
the bot failed to load or processing fails, 405 for any other method. -/
def telegramHandler (botLoaded : Bool) (method : String) (body : ReqBody)
    (processOk : Bool) : WebResponse :=
  let m := pyUpper method
  if m == "GET" then
    { statusCode := 200, body := RespBody.statusPageBody }
  else if m == "POST" then
    if !botLoaded then
      { statusCode := 500, body := RespBody.botNotInitBody }
    else
      match body with
      | ReqBody.strBody BodyParse.malformed =>
          { statusCode := 400, body := RespBody.invalidJsonBody }
      | ReqBody.strBody (BodyParse.parsed _) =>
          if processOk then { statusCode := 200, body := RespBody.okBody }
          else { statusCode := 500, body := RespBody.errorProcessingBody }
      | ReqBody.dictBody _ =>
          if processOk then { statusCode := 200, body := RespBody.okBody }
          else { statusCode := 500, body := RespBody.errorProcessingBody }
  else
    { statusCode := 405, body := RespBody.methodNotAllowedBody }

/-- do_POST of the BaseHTTPRequestHandler subclass in bot.py (lines 1099
to 1113): one try/except around body read, json.loads and processing;
every exception, a JSON decode error included, is answered with 500. -/
def baseDoPOST (body : BodyParse) (processOk : Bool) : WebResponse :=
  match body with
  | BodyParse.malformed =>
      { statusCode := 500, body := RespBody.handlerErrorBody }
  | BodyParse.parsed _ =>
      if processOk then { statusCode := 200, body := RespBody.updateProcessedBody }
      else { statusCode := 500, body := RespBody.handlerErrorBody }

/-- Method dispatch of BaseHTTPRequestHandler over the subclass in
bot.py: only do_POST and do_GET exist, so any other method receives the
library default 501 Unsupported method, never 405. -/
def baseHandler (method : String) (body : BodyParse) (processOk : Bool) :
    WebResponse :=
  if method == "POST" then baseDoPOST body processOk
  else if method == "GET" then
    { statusCode := 200, body := RespBody.statusPageBody }
  else { statusCode := 501, body := RespBody.unsupportedMethodBody }

/-! ## Sample data for concrete evaluations -/

/-- A concrete Telegram user. -/
def alice : TgUser := { id := 42, firstName := some "Alice" }

/-- A concrete listing record as the listings API returns it. -/
def sampleProp (i : Nat) : Json :=
  Json.obj [("id", Json.str (String.append "P" (toString i))),
            ("title", Json.str "Sample listing")]

/-- n concrete listing records. -/
def sampleProps (n : Nat) : List Json := (List.range n).map sampleProp

/-- A successful listings API response carrying n listings. -/
def sampleResp (n : Nat) : ApiResponse :=
  ApiResponse.ok 200 (BodyParse.parsed (Json.obj [("data", Json.arr (sampleProps n))]))

/-! ## Helper lemmas -/

theorem evalDatetimeUtcnow_bot (t : Nat) :
    evalDatetimeUtcnow botModuleEnv t = Except.error PyErr.attributeError := rfl

theorem getSession_setSession (states : States) (uid : Nat) (s : Session) :
    getSession (setSession states uid s) uid = some s := by
  simp [getSession, setSession]

/-- A session table is cleared for a user when its entry exists and has
no waiting_for marker. -/
def ClearedFor (states : States) (uid : Nat) : Prop :=
  ∃ s2 : Session, getSession states uid = some s2 ∧ s2.waitingFor = none

theorem clearedFor_popWaiting (states : States) (uid : Nat) (s : Session)
    (h : getSession states uid = some s) :
    ClearedFor (popWaiting states uid) uid := by
  refine ⟨{ s with waitingFor := none }, ?_, rfl⟩
  simp [popWaiting, h, getSession]

theorem clearedFor_of_waiting_none (states : States) (uid : Nat) (s : Session)
    (h : getSession states uid = some s) (hw : s.waitingFor = none) :
    ClearedFor states uid := ⟨s, h, hw⟩

/-- Every exit of the shared rendering tail leaves the session cleared,
provided the overwritten entry and any re-stored entry carry no
waiting_for marker. -/
theorem renderSearch_cleared (states1 : States) (uid : Nat) (req : ApiRequest)
    (props : Json) (restore : Option Session) (s1 : Session)
    (h1 : getSession states1 uid = some s1) (hw1 : s1.waitingFor = none)
    (hr : ∀ s, restore = some s → s.waitingFor = none) :
    ClearedFor (renderSearch states1 uid req props restore).states uid := by
  have hfin : ∃ sf : Session,
      getSession (restoreStates states1 uid restore) uid = some sf ∧
      sf.waitingFor = none := by
    cases restore with
    | none => exact ⟨s1, h1, hw1⟩
    | some s => exact ⟨s, getSession_setSession states1 uid s, hr s rfl⟩
  obtain ⟨sf, hsf, hsfw⟩ := hfin
  unfold renderSearch
  split
  · split
    · split
      · exact clearedFor_popWaiting _ uid sf hsf
      · exact ⟨s1, h1, hw1⟩
    · exact ⟨s1, h1, hw1⟩
  · exact clearedFor_popWaiting _ uid sf hsf

/-- The shared rendering tail always records the request it made. -/
theorem renderSearch_request (states1 : States) (uid : Nat) (req : ApiRequest)
    (props : Json) (restore : Option Session) :
    (renderSearch states1 uid req props restore).request = some req := by
  unfold renderSearch
  split
  · split
    · split <;> rfl
    · rfl
  · rfl

/-! Keyboard lemmas. -/

theorem mkPropButton_wf (p : Json) (h : wellFormedProp p = true) :
    mkPropButton p = Except.ok (mkPropButtonPure p) := by
  cases p with
  | obj fs =>
      cases hl : fs.lookup "title" with
      | none => simp [mkPropButton, mkPropButtonPure, pyGetD, hl]
      | some v =>
          cases v with
          | str s => simp [mkPropButton, mkPropButtonPure, pyGetD, hl]
          | null => simp [wellFormedProp, hl] at h
          | bool b => simp [wellFormedProp, hl] at h
          | num n => simp [wellFormedProp, hl] at h
          | arr xs => simp [wellFormedProp, hl] at h
          | obj fs2 => simp [wellFormedProp, hl] at h
  | null => exact Bool.noConfusion h
  | bool b => exact Bool.noConfusion h
  | num n => exact Bool.noConfusion h
  | str s => exact Bool.noConfusion h
  | arr xs => exact Bool.noConfusion h

theorem buttonsFor_wf (l : List Json) (h : ∀ p ∈ l, wellFormedProp p = true) :
    buttonsFor l = Except.ok (l.map mkPropButtonPure) := by
  induction l with
  | nil => rfl
  | cons a t ih =>
      have ha : wellFormedProp a = true := h a (List.mem_cons_self a t)
      have ht : ∀ p ∈ t, wellFormedProp p = true :=
        fun p hp => h p (List.mem_cons_of_mem a hp)
      simp [buttonsFor, mkPropButton_wf a ha, ih ht]

theorem keyboard_slice (props : List Json) (page : Nat) :
    (props.drop (page * 5)).take (min (page * 5 + 5) props.length - page * 5) =
      (props.drop (page * 5)).take 5 := by
  rw [List.take_eq_take]
  simp only [List.length_drop]
  omega

theorem generateKeyboard_wf (props : List Json) (page : Nat)
    (h : ∀ p ∈ props, wellFormedProp p = true) :
    generatePropertiesListKeyboard props page =
      Except.ok (((props.drop (page * 5)).take 5).map mkPropButtonPure ++
        ((if 0 < page then [Button.prevPage (page - 1)] else []) ++
         (if min (page * 5 + 5) props.length < props.length then
            [Button.nextPage (page + 1)] else [])) ++
        [Button.back]) := by
  simp only [generatePropertiesListKeyboard]
  rw [keyboard_slice props page,
    buttonsFor_wf _ (fun p hp => h p (List.drop_subset _ _ (List.take_subset _ _ hp)))]

theorem isPropButton_pure (p : Json) : isPropButton (mkPropButtonPure p) = true := by
  cases p <;> rfl

theorem isNextButton_pure (p : Json) : isNextButton (mkPropButtonPure p) = false := by
  cases p <;> rfl

theorem isPrevButton_pure (p : Json) : isPrevButton (mkPropButtonPure p) = false := by
  cases p <;> rfl

theorem filter_map_true {α β : Type} (f : α → β) (q : β → Bool) (l : List α)
    (h : ∀ a : α, q (f a) = true) : (l.map f).filter q = l.map f := by
  induction l with
  | nil => rfl
  | cons a t ih => simp [h a, ih]

theorem any_map_false {α β : Type} (f : α → β) (q : β → Bool) (l : List α)
    (h : ∀ a : α, q (f a) = false) : (l.map f).any q = false := by
  induction l with
  | nil => rfl
  | cons a t ih => simp [h a, ih]

theorem propButtonsOf_shape (l : List Json) (nav : List Button)
    (hnav : nav.filter isPropButton = []) :
    propButtonsOf (l.map mkPropButtonPure ++ nav ++ [Button.back]) =
      l.map mkPropButtonPure := by
  unfold propButtonsOf
  rw [List.filter_append, List.filter_append, hnav,
    filter_map_true mkPropButtonPure isPropButton l isPropButton_pure]
  simp [isPropButton]

theorem hasNextButton_shape (l : List Json) (nav : List Button) :
    hasNextButton (l.map mkPropButtonPure ++ nav ++ [Button.back]) =
      nav.any isNextButton := by
  unfold hasNextButton
  rw [List.any_append, List.any_append,
    any_map_false mkPropButtonPure isNextButton l isNextButton_pure]
  simp [isNextButton]

theorem hasPrevButton_shape (l : List Json) (nav : List Button) :
    hasPrevButton (l.map mkPropButtonPure ++ nav ++ [Button.back]) =
      nav.any isPrevButton := by
  unfold hasPrevButton
  rw [List.any_append, List.any_append,
    any_map_false mkPropButtonPure isPrevButton l isPrevButton_pure]
  simp [isPrevButton]

/-- The keyboard for a well formed list rendered at local page 0:
property buttons for the first five listings, a Next button exactly
when more than five listings were fetched, no Previous button. -/
theorem keyboard_page0 (ps : List Json)
    (hwf : ∀ p ∈ ps, wellFormedProp p = true) :
    ∃ kb : List Button,
      generatePropertiesListKeyboard ps 0 = Except.ok kb ∧
      propButtonsOf kb = (ps.take 5).map mkPropButtonPure ∧
      (hasNextButton kb = true ↔ 5 < ps.length) ∧
      hasPrevButton kb = false := by
  refine ⟨_, generateKeyboard_wf ps 0 hwf, ?_, ?_, ?_⟩
  · rw [propButtonsOf_shape]
    · simp
    · split_ifs <;> rfl
  · rw [hasNextButton_shape, List.any_append]
    by_cases hc : min (0 * 5 + 5) ps.length < ps.length
    · simp only [hc, if_pos, if_true]
      simp [isNextButton]
      omega
    · simp only [hc, if_neg, if_false]
      simp [isNextButton]
      omega
  · rw [hasPrevButton_shape, List.any_append]
    split_ifs <;> simp [isPrevButton] <;> omega

/-- The keyboard for a well formed list rendered at local page index p:
the property buttons are exactly the listings at positions 5p to 5p+4
of the fetched list. -/
theorem keyboard_pageN (ps : List Json) (p : Nat)
    (hwf : ∀ q ∈ ps, wellFormedProp q = true) :
    ∃ kb : List Button,
      generatePropertiesListKeyboard ps p = Except.ok kb ∧
      propButtonsOf kb = ((ps.drop (p * 5)).take 5).map mkPropButtonPure := by
  refine ⟨_, generateKeyboard_wf ps p hwf, ?_⟩
  rw [propButtonsOf_shape]
  split_ifs <;> rfl

/-- The rendering tail in the success case: with a nonempty fetched
list whose keyboard builds, the searching and result replies go out. -/
theorem renderSearch_success (states1 : States) (uid : Nat) (req : ApiRequest)
    (ps : List Json) (restore : Option Session) (kb : List Button)
    (hne : ps ≠ []) (hkb : generatePropertiesListKeyboard ps 0 = Except.ok kb) :
    renderSearch states1 uid req (Json.arr ps) restore =
      { states := popWaiting (restoreStates states1 uid restore) uid,
        request := some req,
        replies := [{ tag := ReplyTag.searching, kb := KbKind.noKb },
                    { tag := ReplyTag.propertiesFound, kb := KbKind.propList kb }] } := by
  have ht : jsonTruthy (Json.arr ps) = true := by
    cases ps with
    | nil => exact absurd rfl hne
    | cons a t => rfl
  simp [renderSearch, ht, hkb]

/-! ## Claims -/

/-- Claim C4: in bot.py the from-import on line 11 rebinds the module
level name datetime to the datetime class (shadowing the module import
on line 10), so every evaluation of datetime.datetime.utcnow() raises
AttributeError; consequently the /start handler inserts no document for
a new user (the record construction raises first and the surrounding
except swallows it), and the fav_add branch for a not yet present id
always reaches its error handler instead of persisting. -/
theorem datetime_shadowing_breaks_handlers :
    lookupName botModuleEnv "datetime" = some PyObj.datetimeClass ∧
    (∀ t : Nat, evalDatetimeUtcnow botModuleEnv t = Except.error PyErr.attributeError) ∧
    (∀ (db : DB) (u : TgUser) (img : Option String) (t1 t2 : Nat),
        findOne db (toString u.id) = none →
        (start botModuleEnv db u img t1 t2).1 = db) ∧
    (∀ (db : DB) (uid pid : String) (t : Nat),
        pid ∉ favoritesIn db uid →
        favAdd botModuleEnv db uid pid t = (db, CbAnswer.errorAddingFavorites)) := by
  refine ⟨rfl, fun t => rfl, ?_, ?_⟩
  · intro db u img t1 t2 h
    simp [start, h, evalDatetimeUtcnow_bot]
  · intro db uid pid t h
    simp [favAdd, h, evalDatetimeUtcnow_bot]

/-- Witness for C4: with an empty collection, a first /start from a
fresh user leaves the collection empty and a fav_add on a fresh id
answers with the error alert. -/
theorem datetime_shadowing_witness :
    (start botModuleEnv [] alice (some "img") 5 7).1 = [] ∧
    favAdd botModuleEnv [] "42" "prop1" 3 = ([], CbAnswer.errorAddingFavorites) :=
  ⟨datetime_shadowing_breaks_handlers.2.2.1 [] alice (some "img") 5 7 rfl,
   datetime_shadowing_breaks_handlers.2.2.2 [] "42" "prop1" 3 (by decide)⟩

/-- Claim C1 (code bug): the claim states that a first /start inserts
exactly one document with favorites equal to the empty list and
created_at equal to updated_at.  The code disagrees twice over: under
the actual module environment of bot.py the record construction raises
AttributeError (the shadowed datetime binding of C4) and nothing is
ever inserted; and even under the intended module binding the inserted
document carries no favorites field at all and its two timestamps come
from two separate clock reads.  Both facts evaluated at a concrete
fresh user. -/
theorem start_first_contact_evaluation :
    (start botModuleEnv [] alice (some "img") 5 7).1 = [] ∧
    ((start datetimeModuleOnlyEnv [] alice (some "img") 5 7).1.map
        (fun u => (u.favorites, u.createdAt, u.updatedAt))) =
      [(none, some 5, some 7)] := by
  exact ⟨rfl, rfl⟩

/-- Claim C2 (code bug): the claim states fav_add is idempotent with the
id stored exactly once after two adds.  Under the module environment of
bot.py the persist path always raises before update_one (C4), so after
two fav_add calls for a fresh id the favorites still do not contain the
id at all, and both calls answered with the error alert. -/
theorem fav_add_twice_stores_nothing :
    favAdd botModuleEnv (favAdd botModuleEnv [] "42" "prop1" 3).1 "42" "prop1" 4 =
      ([], CbAnswer.errorAddingFavorites) ∧
    (favAdd botModuleEnv [] "42" "prop1" 3).2 = CbAnswer.errorAddingFavorites ∧
    List.count "prop1"
      (favoritesIn (favAdd botModuleEnv
          (favAdd botModuleEnv [] "42" "prop1" 3).1 "42" "prop1" 4).1 "42") = 0 := by
  exact ⟨rfl, rfl, rfl⟩

/-- Counterexample to claim C3 as stated: the no-op guarantee is claimed
unconditionally, including for a user with no document; but for such a
user the fav_remove branch dereferences None and its except sends the
show_alert error answer. -/
theorem fav_remove_missing_user_alerts :
    favRemove botModuleEnv [] "42" "prop9" 0 = ([], CbAnswer.errorRemovingFavorite) ∧
    isErrorAlert (favRemove botModuleEnv [] "42" "prop9" 0).2 = true := by
  exact ⟨rfl, rfl⟩

/-- Claim C3 as amended: for every user whose document exists, removing
an id not in the favorites is a no-op (collection unchanged, no error
alert, just the plain callback acknowledgement); when the document is
absent the branch instead sends the generic error alert and still
leaves the collection unchanged. -/
theorem fav_remove_noop_or_alert :
    (∀ (db : DB) (uid pid : String) (t : Nat) (u : UserDoc),
        findOne db uid = some u → pid ∉ u.favorites.getD [] →
        favRemove botModuleEnv db uid pid t = (db, CbAnswer.genericAck)) ∧
    (∀ (db : DB) (uid pid : String) (t : Nat),
        findOne db uid = none →
        favRemove botModuleEnv db uid pid t = (db, CbAnswer.errorRemovingFavorite)) := by
  constructor
  · intro db uid pid t u hu hp
    simp [favRemove, hu, hp]
  · intro db uid pid t h
    simp [favRemove, h]

/-- Witness for the amended C3 at concrete inputs: a document whose
favorites lack the id, and a missing document. -/
theorem fav_remove_noop_witness :
    favRemove botModuleEnv [{ id := "42", favorites := some ["a"] }] "42" "b" 0 =
      ([{ id := "42", favorites := some ["a"] }], CbAnswer.genericAck) ∧
    favRemove botModuleEnv [] "42" "b" 0 = ([], CbAnswer.errorRemovingFavorite) :=
  ⟨fav_remove_noop_or_alert.1 _ "42" "b" 0 _ rfl (by decide),
   fav_remove_noop_or_alert.2 [] "42" "b" 0 rfl⟩

/-- Claim C7: on every failure mode of the listings call (transport
error, non-200 status, malformed JSON body) fetch_properties returns
the empty list and fetch_property returns None; both wrap their whole
body in try/except, so neither ever propagates an exception (their
embeddings return plain values by construction). -/
theorem fetch_failure_returns_empty (resp : ApiResponse)
    (h : isApiFailure resp = true) :
    fetchProperties resp = Json.arr [] ∧ fetchProperty resp = none := by
  cases resp with
  | transportError => exact ⟨rfl, rfl⟩
  | ok s body =>
    by_cases hs : s = 200
    · subst hs
      cases body with
      | malformed => exact ⟨rfl, rfl⟩
      | parsed j => simp [isApiFailure] at h
    · cases body <;>
        simp [fetchProperties, fetchPropertiesCore, fetchProperty, fetchPropertyCore, hs]

/-- Witness for C7 at the three concrete failure modes. -/
theorem fetch_failure_witness :
    (isApiFailure ApiResponse.transportError = true ∧
      fetchProperties ApiResponse.transportError = Json.arr [] ∧
      fetchProperty ApiResponse.transportError = none) ∧
    (isApiFailure (ApiResponse.ok 500 (BodyParse.parsed Json.null)) = true ∧
      fetchProperties (ApiResponse.ok 500 (BodyParse.parsed Json.null)) = Json.arr [] ∧
      fetchProperty (ApiResponse.ok 500 (BodyParse.parsed Json.null)) = none) ∧
    (isApiFailure (ApiResponse.ok 200 BodyParse.malformed) = true ∧
      fetchProperties (ApiResponse.ok 200 BodyParse.malformed) = Json.arr [] ∧
      fetchProperty (ApiResponse.ok 200 BodyParse.malformed) = none) :=
  ⟨⟨rfl, fetch_failure_returns_empty ApiResponse.transportError rfl⟩,
   ⟨rfl, fetch_failure_returns_empty (ApiResponse.ok 500 (BodyParse.parsed Json.null)) rfl⟩,
   ⟨rfl, fetch_failure_returns_empty (ApiResponse.ok 200 BodyParse.malformed) rfl⟩⟩

/-- Counterexample to claim C8 as stated: the claim extends the
200/400/500/405 contract to both adapters, but the
BaseHTTPRequestHandler in bot.py answers a POST with a malformed JSON
body with 500, not 400 (its single try/except maps every failure to
500). -/
theorem base_handler_malformed_json_not_400 :
    baseHandler "POST" BodyParse.malformed true =
      { statusCode := 500, body := RespBody.handlerErrorBody } ∧
    (baseHandler "POST" BodyParse.malformed true).statusCode ≠ 400 := by
  exact ⟨rfl, by decide⟩

/-- Claim C8 as amended: the dict based handler of api/telegram.py
follows the stated contract (200 with plain OK on success, 400 on a
malformed JSON string body, 500 with an error message on processing
failure, 405 on any method other than GET or POST); the
BaseHTTPRequestHandler adapter instead answers 200 on success
(body Update processed successfully), 500 on malformed JSON and on
processing failure alike, and an unhandled method receives the library
default 501, never 405. -/
theorem webhook_status_codes :
    (∀ j : Json, telegramHandler true "POST" (ReqBody.strBody (BodyParse.parsed j)) true =
        { statusCode := 200, body := RespBody.okBody }) ∧
    (∀ b : Bool, telegramHandler true "POST" (ReqBody.strBody BodyParse.malformed) b =
        { statusCode := 400, body := RespBody.invalidJsonBody }) ∧
    (∀ j : Json, telegramHandler true "POST" (ReqBody.strBody (BodyParse.parsed j)) false =
        { statusCode := 500, body := RespBody.errorProcessingBody }) ∧
    (∀ (method : String) (body : ReqBody) (b : Bool),
        pyUpper method ≠ "GET" → pyUpper method ≠ "POST" →
        telegramHandler true method body b =
          { statusCode := 405, body := RespBody.methodNotAllowedBody }) ∧
    (∀ b : Bool, baseDoPOST BodyParse.malformed b =
        { statusCode := 500, body := RespBody.handlerErrorBody }) ∧
    (∀ j : Json, baseDoPOST (BodyParse.parsed j) true =
        { statusCode := 200, body := RespBody.updateProcessedBody }) ∧
    (∀ j : Json, baseDoPOST (BodyParse.parsed j) false =
        { statusCode := 500, body := RespBody.handlerErrorBody }) ∧
    (∀ (body : BodyParse) (b : Bool) (m : String), m ≠ "POST" → m ≠ "GET" →
        baseHandler m body b =
          { statusCode := 501, body := RespBody.unsupportedMethodBody }) := by
  refine ⟨fun j => rfl, fun b => rfl, fun j => rfl, ?_, fun b => rfl,
    fun j => rfl, fun j => rfl, ?_⟩
  · intro method body b h1 h2
    simp [telegramHandler, h1, h2]
  · intro body b m h1 h2
    simp [baseHandler, h1, h2]

/-- Claim C5: whenever a session entry holds a waiting_for marker,
processing one text message through the free text handler leaves that
user's session entry without the marker, whichever branch ran and
whether the search found results, found none, or the price text failed
to parse (each branch overwrites the entry with a marker free record
before anything can fail, and the parse failure path pops the marker
explicitly). -/
theorem waiting_marker_always_cleared (states : States) (uid : Nat)
    (text : String) (resp : ApiResponse) (st : Session) (w : WaitKind)
    (hs : getSession states uid = some st) (hw : st.waitingFor = some w) :
    ClearedFor (handleTextMessages states uid text resp).states uid := by
  unfold handleTextMessages
  rw [hs]
  simp only [Option.getD_some]
  rw [hw]
  cases w with
  | location =>
      unfold locationFlow
      exact renderSearch_cleared _ _ _ _ _ _ (getSession_setSession _ _ _) rfl
        (fun s h => by injection h with h2; rw [← h2])
  | price =>
      unfold priceFlow
      cases parsePriceText (pyStrip text) with
      | none =>
          exact clearedFor_popWaiting states uid st hs
      | some f =>
          exact renderSearch_cleared _ _ _ _ _ _ (getSession_setSession _ _ _) rfl
            (fun s h => nomatch h)
  | textSearch =>
      unfold textSearchFlow
      exact renderSearch_cleared _ _ _ _ _ _ (getSession_setSession _ _ _) rfl
        (fun s h => nomatch h)

/-- Witness for C5: a user awaiting price input who sends an unparsable
text over a failing API still ends with the marker cleared. -/
theorem waiting_marker_cleared_witness :
    ClearedFor (handleTextMessages [(42, { waitingFor := some WaitKind.price })]
        42 "abc" ApiResponse.transportError).states 42 :=
  waiting_marker_always_cleared _ 42 "abc" _ _ WaitKind.price rfl rfl

/-! Dispatch and branch lemmas for the price branch. -/

theorem handleText_dispatch_price (states : States) (uid : Nat) (text : String)
    (resp : ApiResponse) (st : Session) (hs : getSession states uid = some st)
    (hw : st.waitingFor = some WaitKind.price) :
    handleTextMessages states uid text resp = priceFlow states uid (pyStrip text) resp := by
  simp [handleTextMessages, hs, hw]

theorem priceFlow_request_of_parse (states : States) (uid : Nat) (text : String)
    (resp : ApiResponse) (f : PriceFilters) (h : parsePriceText text = some f) :
    (priceFlow states uid text resp).request =
      some (propertiesRequest
        { minPrice := f.minPrice, maxPrice := some f.maxPrice, limit := some 20 }) := by
  unfold priceFlow
  rw [h]
  exact renderSearch_request _ _ _ _ _

theorem priceFlow_parse_failure (states : States) (uid : Nat) (text : String)
    (resp : ApiResponse) (h : parsePriceText text = none) :
    priceFlow states uid text resp =
      { states := popWaiting states uid, request := none,
        replies := [{ tag := ReplyTag.priceFormatError, kb := KbKind.backMenu }] } := by
  unfold priceFlow
  rw [h]

/-- The session table of a user awaiting price input. -/
def awaitingPrice : States := [(42, { waitingFor := some WaitKind.price })]

/-- Claim C6: for a user awaiting price input, the text
5000000-20000000 makes the handler call the listings API with filters
minPrice 5000000 and maxPrice 20000000 (plus the fixed limit 20 the
branch adds); the text 20000000 yields only maxPrice 20000000 (plus
limit); and any text the price parse rejects yields the format error
reply and no listings API call at all. -/
theorem price_text_parsing :
    (∀ resp : ApiResponse,
        (handleTextMessages awaitingPrice 42 "5000000-20000000" resp).request =
          some { path := "/houses",
                 params := [("minPrice", Json.num 5000000),
                            ("maxPrice", Json.num 20000000),
                            ("limit", Json.num 20)] }) ∧
    (∀ resp : ApiResponse,
        (handleTextMessages awaitingPrice 42 "20000000" resp).request =
          some { path := "/houses",
                 params := [("maxPrice", Json.num 20000000), ("limit", Json.num 20)] }) ∧
    (∀ (text : String) (resp : ApiResponse),
        parsePriceText (pyStrip text) = none →
        (handleTextMessages awaitingPrice 42 text resp).request = none ∧
        (handleTextMessages awaitingPrice 42 text resp).replies =
          [{ tag := ReplyTag.priceFormatError, kb := KbKind.backMenu }]) := by
  refine ⟨fun resp => ?_, fun resp => ?_, fun text resp h => ?_⟩
  · rw [handleText_dispatch_price awaitingPrice 42 _ resp _ rfl rfl,
      priceFlow_request_of_parse _ _ _ _ ⟨some 5000000, 20000000⟩ (by rfl)]
    rfl
  · rw [handleText_dispatch_price awaitingPrice 42 _ resp _ rfl rfl,
      priceFlow_request_of_parse _ _ _ _ ⟨none, 20000000⟩ (by rfl)]
    rfl
  · rw [handleText_dispatch_price awaitingPrice 42 text resp _ rfl rfl,
      priceFlow_parse_failure _ _ _ _ h]
    exact ⟨rfl, rfl⟩

/-- Dispatch lemma for the location branch. -/
theorem handleText_dispatch_location (states : States) (uid : Nat) (text : String)
    (resp : ApiResponse) (st : Session) (hs : getSession states uid = some st)
    (hw : st.waitingFor = some WaitKind.location) :
    handleTextMessages states uid text resp =
      locationFlow states uid (pyStrip text) resp := by
  simp [handleTextMessages, hs, hw]

/-- Claim C9: for a user awaiting location input who sends text t, the
handler calls the listings API with exactly location t and limit 20;
and the first rendered page shows one property button per fetched
listing at indices 0 through min(5, n)-1, a Next button exactly when
more than 5 listings were fetched, and no Previous button — the
already fetched page is sliced into sub pages of 5 for display. -/
theorem location_search_request_and_first_page (t : String) (resp : ApiResponse)
    (ps : List Json) (hts : pyStrip t = t) (hne : t ≠ "")
    (hresp : fetchProperties resp = Json.arr ps)
    (hwf : ∀ p ∈ ps, wellFormedProp p = true) :
    (handleTextMessages [(42, { waitingFor := some WaitKind.location })]
        42 t resp).request =
      some { path := "/houses",
             params := [("location", Json.str t), ("limit", Json.num 20)] } ∧
    (ps ≠ [] → ∃ kb : List Button,
      (handleTextMessages [(42, { waitingFor := some WaitKind.location })]
          42 t resp).replies =
        [{ tag := ReplyTag.searching, kb := KbKind.noKb },
         { tag := ReplyTag.propertiesFound, kb := KbKind.propList kb }] ∧
      propButtonsOf kb = (ps.take 5).map mkPropButtonPure ∧
      (hasNextButton kb = true ↔ 5 < ps.length) ∧
      hasPrevButton kb = false) := by
  rw [handleText_dispatch_location [(42, { waitingFor := some WaitKind.location })]
      42 t resp { waitingFor := some WaitKind.location } rfl rfl, hts]
  constructor
  · unfold locationFlow
    rw [renderSearch_request]
    simp [propertiesRequest, buildParams, truthyStrField, truthyIntField, hne]
  · intro hne2
    obtain ⟨kb, hkb, h1, h2, h3⟩ := keyboard_page0 ps hwf
    refine ⟨kb, ?_, h1, h2, h3⟩
    unfold locationFlow
    rw [hresp, renderSearch_success _ _ _ _ _ kb hne2 hkb]

/-- Witness for C9: the area name Maitama over a response carrying seven
listings. -/
theorem location_search_witness :
    pyStrip "Maitama" = "Maitama" ∧
    fetchProperties (sampleResp 7) = Json.arr (sampleProps 7) ∧
    (∀ p ∈ sampleProps 7, wellFormedProp p = true) ∧
    ((handleTextMessages [(42, { waitingFor := some WaitKind.location })]
        42 "Maitama" (sampleResp 7)).request =
      some { path := "/houses",
             params := [("location", Json.str "Maitama"), ("limit", Json.num 20)] } ∧
    (sampleProps 7 ≠ [] → ∃ kb : List Button,
      (handleTextMessages [(42, { waitingFor := some WaitKind.location })]
          42 "Maitama" (sampleResp 7)).replies =
        [{ tag := ReplyTag.searching, kb := KbKind.noKb },
         { tag := ReplyTag.propertiesFound, kb := KbKind.propList kb }] ∧
      propButtonsOf kb = ((sampleProps 7).take 5).map mkPropButtonPure ∧
      (hasNextButton kb = true ↔ 5 < (sampleProps 7).length) ∧
      hasPrevButton kb = false)) :=
  ⟨rfl, rfl, by decide,
   location_search_request_and_first_page "Maitama" (sampleResp 7) (sampleProps 7)
     rfl (by decide) rfl (by decide)⟩

/-- The page_ branch always issues its request: session filters minus
page and waiting_for, plus limit 20 and skip page*5. -/
theorem pageBranch_request (states : States) (uid p : Nat) (resp : ApiResponse) :
    (pageBranch states uid p resp).request =
      some (propertiesRequest
        { sessionFilters ((getSession states uid).getD {}) with
            limit := some 20, skip := some (p * 5 : Int) }) := by
  simp only [pageBranch]
  split
  · split
    · split <;> rfl
    · rfl
  · rfl

theorem lookup_buildParams_limit (f : Filters) (n : Int) (h : f.limit = some n) :
    (buildParams f).lookup "limit" = some (Json.num n) := by
  unfold buildParams
  rw [h]
  split_ifs <;> rfl

theorem lookup_buildParams_skip (f : Filters) (n m : Int) (hl : f.limit = some m)
    (h : f.skip = some n) :
    (buildParams f).lookup "skip" = some (Json.num n) := by
  unfold buildParams
  rw [h, hl]
  split_ifs <;> rfl

/-- Claim C10: the page_ p branch applies the page offset twice — the
listings request carries skip p*5 (with limit 20), and the returned
list is then rendered at local index p*5, so the buttons shown are the
fetched items at positions 5p through 5p+4; whenever the API returns at
most 5p items the rendered keyboard has no property buttons at all (and
an empty return renders nothing). -/
theorem page_branch_double_offset (states : States) (uid p : Nat)
    (resp : ApiResponse) (ps : List Json)
    (hresp : fetchProperties resp = Json.arr ps)
    (hwf : ∀ q ∈ ps, wellFormedProp q = true) :
    (∃ params : List (String × Json),
      (pageBranch states uid p resp).request =
        some { path := "/houses", params := params } ∧
      params.lookup "limit" = some (Json.num 20) ∧
      params.lookup "skip" = some (Json.num (p * 5 : Int))) ∧
    (ps ≠ [] → ∃ kb : List Button,
      (pageBranch states uid p resp).replies =
        [{ tag := ReplyTag.propertiesFound, kb := KbKind.propList kb }] ∧
      propButtonsOf kb = ((ps.drop (p * 5)).take 5).map mkPropButtonPure ∧
      (ps.length ≤ p * 5 → propButtonsOf kb = [])) ∧
    (ps = [] → (pageBranch states uid p resp).replies = []) := by
  refine ⟨?_, ?_, ?_⟩
  · refine ⟨_, pageBranch_request states uid p resp, ?_, ?_⟩
    · exact lookup_buildParams_limit _ 20 rfl
    · exact lookup_buildParams_skip _ (p * 5 : Int) 20 rfl rfl
  · intro hne
    obtain ⟨kb, hkb, h1⟩ := keyboard_pageN ps p hwf
    have ht : jsonTruthy (Json.arr ps) = true := by
      cases ps with
      | nil => exact absurd rfl hne
      | cons a t => rfl
    refine ⟨kb, ?_, h1, ?_⟩
    · simp [pageBranch, hresp, ht, hkb]
    · intro hle
      rw [h1, List.drop_eq_nil_of_le hle]
      rfl
  · intro hnil
    subst hnil
    simp [pageBranch, hresp, jsonTruthy]

/-- Witness for C10 at page 4 over a response carrying three listings:
the request asks for skip 20, and the rendered keyboard has no property
buttons. -/
theorem page_branch_witness :
    fetchProperties (sampleResp 3) = Json.arr (sampleProps 3) ∧
    (∀ q ∈ sampleProps 3, wellFormedProp q = true) ∧
    ((∃ params : List (String × Json),
      (pageBranch [] 7 4 (sampleResp 3)).request =
        some { path := "/houses", params := params } ∧
      params.lookup "limit" = some (Json.num 20) ∧
      params.lookup "skip" = some (Json.num (4 * 5 : Int))) ∧
    (sampleProps 3 ≠ [] → ∃ kb : List Button,
      (pageBranch [] 7 4 (sampleResp 3)).replies =
        [{ tag := ReplyTag.propertiesFound, kb := KbKind.propList kb }] ∧
      propButtonsOf kb =
        (((sampleProps 3).drop (4 * 5)).take 5).map mkPropButtonPure ∧
      ((sampleProps 3).length ≤ 4 * 5 → propButtonsOf kb = [])) ∧
    (sampleProps 3 = [] → (pageBranch [] 7 4 (sampleResp 3)).replies = [])) :=
  ⟨rfl, by decide,
   page_branch_double_offset [] 7 4 (sampleResp 3) (sampleProps 3) rfl (by decide)⟩

/-- Witness for C6 at the concrete rejected input abc. -/
theorem price_text_parsing_witness :
    parsePriceText (pyStrip "abc") = none ∧
    (handleTextMessages awaitingPrice 42 "abc" ApiResponse.transportError).request = none ∧
    (handleTextMessages awaitingPrice 42 "abc" ApiResponse.transportError).replies =
      [{ tag := ReplyTag.priceFormatError, kb := KbKind.backMenu }] :=
  ⟨rfl, price_text_parsing.2.2 "abc" ApiResponse.transportError rfl⟩

/-- Witness for the amended C8 at a concrete unhandled method. -/
theorem webhook_status_codes_witness :
    telegramHandler true "PUT" (ReqBody.strBody BodyParse.malformed) true =
      { statusCode := 405, body := RespBody.methodNotAllowedBody } ∧
    baseHandler "PUT" BodyParse.malformed true =
      { statusCode := 501, body := RespBody.unsupportedMethodBody } :=
  ⟨webhook_status_codes.2.2.2.1 "PUT" (ReqBody.strBody BodyParse.malformed) true
      (by decide) (by decide),
   webhook_status_codes.2.2.2.2.2.2.2 BodyParse.malformed true "PUT"
      (by decide) (by decide)⟩

end HouseMe
